import Mathlib

/-!
# Verification of the S3 Innovate location/booking service

A shallow embedding of the booking core of the repository:

* `src/common/utils/open-time.parser.ts` (the window grammar:
  `parseHour`, `parseOpenTime`, `isWithinOpenTime`),
* `src/bookings/bookings.service.ts` (`BookingsService.create`: the ordered
  validation pipeline and the transactional overlap check).

Modelling conventions:

* Instants (`Date` values) are modelled as natural numbers: milliseconds
  since the Unix epoch, always UTC, restricted to non-negative times (all
  behaviour relevant here concerns post-1970 instants).  `Date.getUTCDay`,
  `getUTCHours` and `getUTCMinutes` become arithmetic on that number;
  `Date.toISOString`, used only to render timestamps inside error messages,
  is modelled by the decimal rendering of the millisecond value (an
  injective renaming of instants inside strings).
* JavaScript strings are modelled as `String` / `List Char`; the regular
  expressions of the parser are modelled by hand-rolled matchers that follow
  the regexes token by token.
* Thrown exceptions become `Except` errors.  NestJS exception classes are
  modelled by `ExcKind` (`NotFoundException`, `BadRequestException`,
  `ConflictException`) paired with the message.
* The database is a list of persisted bookings plus a fresh-id counter; the
  SERIALIZABLE transaction of `create` is modelled by its sequential
  semantics (the overlap query and the insert happen atomically), and a
  thrown exception rolls the transaction back, leaving the state unchanged.
-/

namespace S3

/-! ## Character-level helpers (JS string primitives) -/

/-- JS whitespace as far as the inputs of this code base use it
(`String.prototype.trim`, the `\s` class). -/
def isWsChar (c : Char) : Bool :=
  c = ' ' || c = '\t' || c = '\n' || c = '\r' || c = '\x0b' || c = '\x0c'

/-- `String.prototype.trim`, on the character list. -/
def trimChars (cs : List Char) : List Char :=
  ((cs.dropWhile isWsChar).reverse.dropWhile isWsChar).reverse

/-- `String.prototype.toLowerCase` (ASCII, which is all this code feeds it). -/
def lowerChars (cs : List Char) : List Char :=
  cs.map Char.toLower

/-- The regex class `\w`: letters, digits and underscore. -/
def isWordChar (c : Char) : Bool :=
  c.isAlphanum || c = '_'

/-- Numeric value of a decimal digit character. -/
def digitVal (c : Char) : Nat := c.toNat - 48

/-- `parseInt(s, 10)` on a string of decimal digits. -/
def natOfDigits (cs : List Char) : Nat :=
  cs.foldl (fun a c => 10 * a + digitVal c) 0

/-! ## `open-time.parser.ts` -/

/-- `parseHour` applied to the already-trimmed character list: the regex
`^(\d+)(AM|PM)$` (case-insensitive) followed by the 12-hour-clock
adjustment (`PM` and hour ≠ 12 adds 12; `AM` and hour = 12 becomes 0). -/
def parseHourChars (raw : String) (cs : List Char) : Except String Nat :=
  let digits := cs.takeWhile Char.isDigit
  let rest := lowerChars (cs.dropWhile Char.isDigit)
  if digits = [] then
    .error ("Invalid hour format: '" ++ raw ++ "'")
  else if rest = ['a', 'm'] then
    let hour := natOfDigits digits
    .ok (if hour = 12 then 0 else hour)
  else if rest = ['p', 'm'] then
    let hour := natOfDigits digits
    .ok (if hour = 12 then 12 else hour + 12)
  else
    .error ("Invalid hour format: '" ++ raw ++ "'")

/-- `parseHour`: trim, then match `^(\d+)(AM|PM)$/i` and map to the 24-hour
clock.  A thrown `Error` is an `Except.error`. -/
def parseHour (raw : String) : Except String Nat :=
  parseHourChars raw (trimChars raw.data)

/-- `DAY_MAP`: case-sensitive lookup of the three-letter day abbreviation. -/
def dayMap (cs : List Char) : Option Nat :=
  if cs = ['S', 'u', 'n'] then some 0
  else if cs = ['M', 'o', 'n'] then some 1
  else if cs = ['T', 'u', 'e'] then some 2
  else if cs = ['W', 'e', 'd'] then some 3
  else if cs = ['T', 'h', 'u'] then some 4
  else if cs = ['F', 'r', 'i'] then some 5
  else if cs = ['S', 'a', 't'] then some 6
  else none

/-- The result record of `parseOpenTime` (`ParsedOpenTime` in the source). -/
structure ParsedOpenTime where
  startDay : Nat
  endDay : Nat
  startHour : Nat
  endHour : Nat
deriving Repr, DecidableEq

/-- Consume exactly three `\w` characters (a `(\w{3})` capture group). -/
def takeDay : List Char → Option (List Char × List Char)
  | a :: b :: c :: rest =>
    if isWordChar a && isWordChar b && isWordChar c then
      some ([a, b, c], rest)
    else none
  | _ => none

/-- Consume `\s+` (one or more whitespace characters). -/
def dropWs1 : List Char → Option (List Char)
  | [] => none
  | c :: cs => if isWsChar c then some (cs.dropWhile isWsChar) else none

/-- Consume the literal `to`, case-insensitively (the pattern carries the
`/i` flag). -/
def dropTo : List Char → Option (List Char)
  | t :: o :: cs =>
    if t.toLower = 't' && o.toLower = 'o' then some cs else none
  | _ => none

/-- Consume an hour token `(\d+(?:AM|PM))` (case-insensitive), returning the
captured token text. -/
def takeHourTok (cs : List Char) : Option (List Char × List Char) :=
  let digits := cs.takeWhile Char.isDigit
  match cs.dropWhile Char.isDigit with
  | a :: m :: rest =>
    if digits ≠ [] && (a.toLower = 'a' || a.toLower = 'p') && m.toLower = 'm' then
      some (digits ++ [a, m], rest)
    else none
  | _ => none

/-- The anchored pattern
`^(\w{3})\s+to\s+(\w{3})\s+\((\d+(?:AM|PM))\s+to\s+(\d+(?:AM|PM))\)$/i`,
returning the four capture groups. -/
def matchWindowPattern (cs : List Char) :
    Option (List Char × List Char × List Char × List Char) := do
  let (d1, cs) ← takeDay cs
  let cs ← dropWs1 cs
  let cs ← dropTo cs
  let cs ← dropWs1 cs
  let (d2, cs) ← takeDay cs
  let cs ← dropWs1 cs
  let cs ← (match cs with | '(' :: rest => some rest | _ => none)
  let (h1, cs) ← takeHourTok cs
  let cs ← dropWs1 cs
  let cs ← dropTo cs
  let cs ← dropWs1 cs
  let (h2, cs) ← takeHourTok cs
  match cs with
  | [')'] => some (d1, d2, h1, h2)
  | _ => none

/-- `parseOpenTime`: trim; the case-insensitive sentinel `always open` parses
to `null` (here `none`); otherwise the window pattern must match and the day
abbreviations must be in `DAY_MAP`, else an `Error` is thrown
(`Except.error`). -/
def parseOpenTime (openTime : String) : Except String (Option ParsedOpenTime) :=
  let normalized := trimChars openTime.data
  if lowerChars normalized = "always open".data then
    .ok none
  else
    match matchWindowPattern normalized with
    | none => .error ("Unrecognized openTime format: '" ++ openTime ++ "'")
    | some (d1, d2, h1, h2) =>
      match dayMap d1, dayMap d2 with
      | some startDay, some endDay => do
        let startHour ← parseHourChars (String.mk h1) (trimChars h1)
        let endHour ← parseHourChars (String.mk h2) (trimChars h2)
        .ok (some { startDay := startDay, endDay := endDay,
                    startHour := startHour, endHour := endHour })
      | _, _ =>
        .error ("Unknown day abbreviation in openTime: '" ++ openTime ++ "'")

/-! ### Instants -/

def msPerMinute : Nat := 60000
def msPerHour : Nat := 3600000
def msPerDay : Nat := 86400000

/-- `Date.prototype.getUTCDay` for a non-negative epoch-millisecond value
(the epoch, 1970-01-01, was a Thursday = 4). -/
def getUTCDay (ms : Nat) : Nat := (ms / msPerDay + 4) % 7

/-- `Date.prototype.getUTCHours`. -/
def getUTCHours (ms : Nat) : Nat := ms / msPerHour % 24

/-- `Date.prototype.getUTCMinutes`. -/
def getUTCMinutes (ms : Nat) : Nat := ms / msPerMinute % 60

/-- Convenience constructor for concrete instants in statements:
`days` whole days since the epoch plus `hours:minutes` UTC. -/
def utcMs (days hours minutes : Nat) : Nat :=
  ((days * 24 + hours) * 60 + minutes) * msPerMinute

/-- 2026-03-02, a Monday, as days since the epoch. -/
def mon20260302 : Nat := 20514

/-- The day-range loop of `isWithinOpenTime`: starting at `d`, add the
current day, stop when `endDay` is reached, else step `(d + 1) % 7`; the
loop body runs at most 7 times (the source breaks once the set holds 7
days), which the fuel argument mirrors.  Total by construction. -/
def dayWalk : Nat → Nat → Nat → List Nat
  | 0, _, _ => []
  | fuel + 1, d, endDay =>
    if d = endDay then [d] else d :: dayWalk fuel ((d + 1) % 7) endDay

/-- The day/hour evaluation of `isWithinOpenTime` after a successful parse:
the instant's UTC day must be in the walked day range, and the minutes of
day must satisfy `startHour*60 <= total && total <= endHour*60` (inclusive
at both ends, per the source comment: a booking ending exactly at closing
time is valid). -/
def isWithinParsed (p : ParsedOpenTime) (ms : Nat) : Bool :=
  let day := getUTCDay ms
  let allowedDays := dayWalk 7 p.startDay p.endDay
  if allowedDays.contains day then
    let totalMinutes := getUTCHours ms * 60 + getUTCMinutes ms
    decide (p.startHour * 60 ≤ totalMinutes) &&
      decide (totalMinutes ≤ p.endHour * 60)
  else false

/-- `isWithinOpenTime`: parse (propagating a thrown `Error`), `null` means
always open, otherwise evaluate the instant against the parsed window. -/
def isWithinOpenTime (openTime : String) (dateMs : Nat) : Except String Bool :=
  match parseOpenTime openTime with
  | .error e => .error e
  | .ok none => .ok true
  | .ok (some p) => .ok (isWithinParsed p dateMs)

/-! ## Data model (`*.entity.ts`, `create-booking.dto.ts`) -/

structure Location where
  id : Nat
  locationNumber : String
  locationName : String
  building : String
deriving Repr, DecidableEq

structure LocationDepartment where
  id : Nat
  locationId : Nat
  department : String
  capacity : Nat
  openTime : Option String
deriving Repr, DecidableEq

structure Booking where
  id : Nat
  locationId : Nat
  department : String
  attendees : Nat
  startTime : Nat
  endTime : Nat
deriving Repr, DecidableEq

/-- `CreateBookingDto`; `startTime`/`endTime` carry the instants produced by
`new Date(dto.startTime)` / `new Date(dto.endTime)` directly. -/
structure CreateBookingDto where
  locationNumber : String
  department : String
  attendees : Nat
  startTime : Nat
  endTime : Nat
deriving Repr, DecidableEq

/-- The NestJS exception classes thrown by the service. -/
inductive ExcKind where
  | notFound
  | badRequest
  | conflict
deriving Repr, DecidableEq

/-- A thrown HTTP exception: its class and its message. -/
structure Exc where
  kind : ExcKind
  msg : String
deriving Repr, DecidableEq

/-- The read-only collaborator state: the `location` table and the
`location_department` table. -/
structure Env where
  locations : List Location
  deptConfigs : List LocationDepartment
deriving Repr, DecidableEq

/-- Mutable store of the conflict detector: the persisted bookings and the
next generated primary key. -/
structure DB where
  bookings : List Booking
  nextId : Nat
deriving Repr, DecidableEq

/-! ## `BookingsService.create` (`bookings.service.ts`) -/

/-- Timestamp rendering inside error messages (`Date.toISOString` modelled
as the decimal rendering of the instant; see the header). -/
def isoStr (ms : Nat) : String := toString ms

def invalidIntervalMsg (startTime endTime : Nat) : String :=
  "startTime must be before endTime (got startTime=" ++ isoStr startTime ++
    ", endTime=" ++ isoStr endTime ++ ")"

def doesNotServeMsg (locationNumber department : String) : String :=
  "Location '" ++ locationNumber ++ "' does not serve department '" ++
    department ++ "'"

def capacityExceededMsg (department locationNumber : String)
    (capacity attendees : Nat) : String :=
  "Capacity exceeded: department '" ++ department ++ "' at '" ++
    locationNumber ++ "' holds " ++ toString capacity ++ ", requested " ++
    toString attendees

def invalidOpenTimeFormatMsg (locationNumber department : String) : String :=
  "Invalid openTime format for '" ++ locationNumber ++ "' / '" ++
    department ++ "'"

def startOutsideMsg (locationNumber department openTime : String) : String :=
  "Booking start time is outside open hours for '" ++ locationNumber ++
    "' / '" ++ department ++ "' (" ++ openTime ++ ")"

def endOutsideMsg (locationNumber department openTime : String) : String :=
  "Booking end time is outside open hours for '" ++ locationNumber ++
    "' / '" ++ department ++ "' (" ++ openTime ++ ")"

def alreadyBookedMsg (locationNumber : String) (startTime endTime : Nat) :
    String :=
  "Location '" ++ locationNumber ++ "' is already booked from " ++
    isoStr startTime ++ " to " ++ isoStr endTime

/-- Modelled from the spec: `LocationsService.findFlatByNumber`, the first
call of `BookingsService.create`, is missing from the captured sources (only
its caller and its mocks appear).  Every captured by-`locationNumber` lookup
of `LocationsService` (`findOne`, `update`, `remove`, `findDepartments`)
resolves the unique location with that `locationNumber` and throws
`NotFoundException` (`Location '<n>' not found`) when none exists, the
repository README routes that step to `404 Not Found`, and the spec's
Resource Directory interface returns `ResourceConfig | NotFound`; the flat
lookup is modelled accordingly (without the descendant-tree expansion that
`findOne` adds). -/
def findFlatByNumber (env : Env) (locationNumber : String) :
    Except Exc Location :=
  match env.locations.find? (fun l => l.locationNumber == locationNumber) with
  | some l => .ok l
  | none =>
    .error { kind := .notFound
             msg := "Location '" ++ locationNumber ++ "' not found" }

/-- The `location_department` lookup of `create`:
`locationDepartmentRepo.findOne({ where: { locationId, department } })`. -/
def findDeptConfig (env : Env) (locationId : Nat) (department : String) :
    Option LocationDepartment :=
  env.deptConfigs.find?
    (fun c => c.locationId == locationId && c.department == department)

/-- The open-time validation block of `create` (lines 71–93): skipped when
`openTime` is null; otherwise both endpoints are evaluated (a thrown parse
error becomes the invalid-format `BadRequestException`), the start endpoint
is checked and reported before the end endpoint.  Parametrised over the
window evaluator so that the absent-window case can be stated as
independence from it. -/
def checkOpenTime (within : String → Nat → Except String Bool)
    (deptConfig : LocationDepartment) (dto : CreateBookingDto) :
    Except Exc Unit :=
  match deptConfig.openTime with
  | none => .ok ()
  | some ot =>
    match within ot dto.startTime, within ot dto.endTime with
    | .ok startOk, .ok endOk =>
      if !startOk then
        .error { kind := .badRequest
                 msg := startOutsideMsg dto.locationNumber dto.department ot }
      else if !endOk then
        .error { kind := .badRequest
                 msg := endOutsideMsg dto.locationNumber dto.department ot }
      else .ok ()
    | _, _ =>
      .error { kind := .badRequest
               msg := invalidOpenTimeFormatMsg dto.locationNumber dto.department }

/-- The overlap condition of the transactional query (lines 101–108):
`booking.locationId = :locationId AND booking.startTime < :endTime AND
booking.endTime > :startTime`. -/
def overlapsQuery (locationId startTime endTime : Nat) (b : Booking) : Bool :=
  b.locationId == locationId && decide (b.startTime < endTime) &&
    decide (b.endTime > startTime)

/-- The SERIALIZABLE transaction body (lines 96–130): `getOne` on the
overlap query (the first matching row), `ConflictException` reporting the
colliding interval when one exists, otherwise create and save the booking.
An error leaves the store untouched (rollback). -/
def conflictCheckAndInsert (location : Location) (db : DB)
    (dto : CreateBookingDto) : Except Exc (Booking × DB) :=
  match db.bookings.find? (overlapsQuery location.id dto.startTime dto.endTime) with
  | some overlapping =>
    .error { kind := .conflict
             msg := alreadyBookedMsg dto.locationNumber
                      overlapping.startTime overlapping.endTime }
  | none =>
    let booking : Booking :=
      { id := db.nextId
        locationId := location.id
        department := dto.department
        attendees := dto.attendees
        startTime := dto.startTime
        endTime := dto.endTime }
    .ok (booking, { bookings := db.bookings ++ [booking], nextId := db.nextId + 1 })

/-- `BookingsService.create`, parametrised over the window evaluator (used
only through `checkOpenTime`).  Order, as in the source: location lookup,
temporal sanity (`startDate >= endDate` rejected), department-config lookup,
capacity, open-time window, then the transactional overlap check and
insert. -/
def createCore (within : String → Nat → Except String Bool) (env : Env)
    (db : DB) (dto : CreateBookingDto) : Except Exc (Booking × DB) :=
  match findFlatByNumber env dto.locationNumber with
  | .error e => .error e
  | .ok location =>
    if dto.startTime ≥ dto.endTime then
      .error { kind := .badRequest
               msg := invalidIntervalMsg dto.startTime dto.endTime }
    else
      match findDeptConfig env location.id dto.department with
      | none =>
        .error { kind := .badRequest
                 msg := doesNotServeMsg dto.locationNumber dto.department }
      | some deptConfig =>
        if dto.attendees > deptConfig.capacity then
          .error { kind := .badRequest
                   msg := capacityExceededMsg dto.department dto.locationNumber
                            deptConfig.capacity dto.attendees }
        else
          match checkOpenTime within deptConfig dto with
          | .error e => .error e
          | .ok _ => conflictCheckAndInsert location db dto

/-- `BookingsService.create` with the real window evaluator. -/
def create (env : Env) (db : DB) (dto : CreateBookingDto) :
    Except Exc (Booking × DB) :=
  createCore isWithinOpenTime env db dto

/-- The store after a `create` call: the transaction's store on success and
the unchanged store when an exception was thrown (rollback). -/
def createDB (env : Env) (db : DB) (dto : CreateBookingDto) : DB :=
  match create env db dto with
  | .ok (_, db2) => db2
  | .error _ => db

/-- Two bookings overlap when they target the same location and their
`[startTime, endTime)` intervals intersect. -/
def bookingsOverlap (a b : Booking) : Prop :=
  a.locationId = b.locationId ∧ a.startTime < b.endTime ∧ b.startTime < a.endTime

/-- The global invariant: no two persisted bookings for one location have
overlapping `[startTime, endTime)` intervals. -/
def NoOverlapInv (db : DB) : Prop :=
  db.bookings.Pairwise (fun a b => ¬ bookingsOverlap a b)

/-! ## Commit-time serialization-failure translation -/

/-- A failure reported by the transaction layer (TypeORM): a
`QueryFailedError` carrying the PostgreSQL error code, or any other
transaction-layer error. -/
inductive TxError where
  | queryFailed (code : String) (message : String)
  | other (message : String)
deriving Repr, DecidableEq

/-- Whether a transaction-layer failure is a PostgreSQL serialization
failure (error code `40001`). -/
def isSerializationFailure : TxError → Bool
  | .queryFailed code _ => code == "40001"
  | .other _ => false

/-- Modelled from the spec: the commit-time error handler wrapped around the
SERIALIZABLE transaction of `BookingsService.create`.  The captured
`bookings.service.ts` lacks it (the transaction's rejection would propagate
raw), but the spec requires translating a serialization failure into the
same `SlotConflict` outcome while any other transaction-layer failure
propagates unmodified, and the repository's `BookingsService`
serialization-failure tests exercise exactly that behaviour
(`QueryFailedError` code `40001` becomes a `ConflictException` matching
`/concurrent conflict/i`; a `23505` `QueryFailedError` is re-thrown as-is).
`Sum.inl` re-throws the original failure; `Sum.inr` is the translated
`ConflictException`. -/
def translateTxFailure (e : TxError) : TxError ⊕ Exc :=
  match e with
  | .queryFailed code _ =>
    if code = "40001" then
      .inr { kind := .conflict
             msg := "Booking failed due to a concurrent conflict, please retry" }
    else .inl e
  | .other _ => .inl e

/-! ## Concrete fixtures used by witnesses and counterexamples -/

/-- Whether a parse attempt threw (`Except.error`). -/
def isParseError (r : Except String (Option ParsedOpenTime)) : Bool :=
  match r with
  | .error _ => true
  | .ok _ => false

/-- A bookable room scoped to department `EFM`, capacity 10, window
`Mon to Fri (9AM to 6PM)` (the seed/test fixture of the repository). -/
def envW : Env :=
  ⟨[⟨1, "A-01-01", "Meeting Room 1", "A"⟩],
   [⟨1, 1, "EFM", 10, some "Mon to Fri (9AM to 6PM)"⟩]⟩

def locW : Location := ⟨1, "A-01-01", "Meeting Room 1", "A"⟩

def cfgW : LocationDepartment := ⟨1, 1, "EFM", 10, some "Mon to Fri (9AM to 6PM)"⟩

def dbW : DB := ⟨[], 1⟩

/-- Monday 2026-03-02, 09:00–11:00 UTC, 5 attendees. -/
def dtoW : CreateBookingDto :=
  ⟨"A-01-01", "EFM", 5, utcMs mon20260302 9 0, utcMs mon20260302 11 0⟩

/-- An environment with no locations at all. -/
def envEmpty : Env := ⟨[], []⟩

/-- A request whose `startTime` is after its `endTime`, for a location
number that exists nowhere. -/
def dtoBadInterval : CreateBookingDto :=
  ⟨"B-99-99", "EFM", 5, utcMs mon20260302 11 0, utcMs mon20260302 9 0⟩

/-- A location that exists but serves no department at all. -/
def envNoDept : Env := ⟨[⟨1, "A-01-01", "Meeting Room 1", "A"⟩], []⟩

/-! ## Helper lemmas -/

theorem isWsChar_eq_false_of_isDigit {c : Char} (h : c.isDigit = true) :
    isWsChar c = false := by
  cases hw : isWsChar c
  · rfl
  · exfalso
    unfold isWsChar at hw
    simp only [Bool.or_eq_true, decide_eq_true_eq] at hw
    rcases hw with ((((h1 | h1) | h1) | h1) | h1) | h1 <;> subst h1 <;>
      exact absurd h (by decide)

theorem takeWhile_digits_append (ds : List Char)
    (hd : ∀ c ∈ ds, c.isDigit = true) (a m : Char) (ha : a.isDigit = false) :
    (ds ++ [a, m]).takeWhile Char.isDigit = ds ∧
    (ds ++ [a, m]).dropWhile Char.isDigit = [a, m] := by
  induction ds with
  | nil => simp [List.takeWhile_cons, List.dropWhile_cons, ha]
  | cons c t ih =>
    have hc : c.isDigit = true := hd c (by simp)
    have ht : ∀ x ∈ t, x.isDigit = true := fun x hx => hd x (by simp [hx])
    obtain ⟨ih1, ih2⟩ := ih ht
    simp [List.takeWhile_cons, List.dropWhile_cons, hc, ih1, ih2]

theorem trimChars_digits_append (ds : List Char) (hne : ds ≠ [])
    (hd : ∀ c ∈ ds, c.isDigit = true) (a m : Char)
    (hwm : isWsChar m = false) :
    trimChars (ds ++ [a, m]) = ds ++ [a, m] := by
  obtain ⟨c, t, rfl⟩ : ∃ c t, ds = c :: t := by
    cases ds with
    | nil => exact absurd rfl hne
    | cons c t => exact ⟨c, t, rfl⟩
  have hc : isWsChar c = false := isWsChar_eq_false_of_isDigit (hd c (by simp))
  unfold trimChars
  rw [List.cons_append, List.dropWhile_cons, hc]
  simp only [Bool.false_eq_true, if_false, List.reverse_append,
    List.reverse_cons, List.reverse_nil]
  simp [List.dropWhile_cons, hwm]

theorem parseHour_digits_append (ds : List Char) (hne : ds ≠ [])
    (hd : ∀ c ∈ ds, c.isDigit = true) :
    parseHour (String.mk (ds ++ ['P', 'M'])) =
      .ok (if natOfDigits ds = 12 then 12 else natOfDigits ds + 12) ∧
    parseHour (String.mk (ds ++ ['A', 'M'])) =
      .ok (if natOfDigits ds = 12 then 0 else natOfDigits ds) := by
  constructor
  · show parseHourChars _ (trimChars (String.mk (ds ++ ['P', 'M'])).data) = _
    rw [show (String.mk (ds ++ ['P', 'M'])).data = ds ++ ['P', 'M'] from rfl]
    rw [trimChars_digits_append ds hne hd 'P' 'M' (by decide)]
    obtain ⟨h1, h2⟩ := takeWhile_digits_append ds hd 'P' 'M' (by decide)
    unfold parseHourChars
    rw [h1, h2]
    simp [lowerChars, hne]
  · show parseHourChars _ (trimChars (String.mk (ds ++ ['A', 'M'])).data) = _
    rw [show (String.mk (ds ++ ['A', 'M'])).data = ds ++ ['A', 'M'] from rfl]
    rw [trimChars_digits_append ds hne hd 'A' 'M' (by decide)]
    obtain ⟨h1, h2⟩ := takeWhile_digits_append ds hd 'A' 'M' (by decide)
    unfold parseHourChars
    rw [h1, h2]
    simp [lowerChars, hne]

theorem dayWalk_length_le (fuel : Nat) :
    ∀ s e : Nat, (dayWalk fuel s e).length ≤ fuel := by
  induction fuel with
  | zero => intro s e; simp [dayWalk]
  | succ n ih =>
    intro s e
    unfold dayWalk
    by_cases h : s = e
    · simp [h]
    · simp only [h, if_false]
      have := ih ((s + 1) % 7) e
      simp only [List.length_cons]
      omega

theorem dayWalk_mem_iff_bounded :
    ∀ s, s < 7 → ∀ e, e < 7 → ∀ d, d < 7 →
      (d ∈ dayWalk 7 s e ↔ ∃ k, k < 7 ∧ k ≤ (7 + e - s) % 7 ∧ d = (s + k) % 7) := by
  decide

/-! ## C8: 12-hour-clock hour parsing -/

/-- C8: hour tokens are parsed on the 12-hour clock: `12AM` yields 0, `12PM`
yields 12, `9AM` yields 9, `6PM` yields 18; in general a `PM` token whose
numeral is not 12 yields numeral + 12 and an `AM` token whose numeral is not
12 yields the numeral unchanged; and whenever the window pattern matches,
`parseOpenTime` stores exactly the `parseHour` values of the two hour tokens
as `startHour` and `endHour`. -/
theorem parseHour_twelve_hour_clock :
    parseHour "12AM" = .ok 0 ∧ parseHour "12PM" = .ok 12 ∧
    parseHour "9AM" = .ok 9 ∧ parseHour "6PM" = .ok 18 ∧
    (∀ ds : List Char, ds ≠ [] → (∀ c ∈ ds, c.isDigit = true) →
      natOfDigits ds ≠ 12 →
      parseHour (String.mk (ds ++ ['P', 'M'])) = .ok (natOfDigits ds + 12) ∧
      parseHour (String.mk (ds ++ ['A', 'M'])) = .ok (natOfDigits ds)) ∧
    (∀ (s : String) (d1 d2 h1 h2 : List Char) (sd ed sh eh : Nat),
      lowerChars (trimChars s.data) ≠ "always open".data →
      matchWindowPattern (trimChars s.data) = some (d1, d2, h1, h2) →
      dayMap d1 = some sd → dayMap d2 = some ed →
      parseHour (String.mk h1) = .ok sh → parseHour (String.mk h2) = .ok eh →
      parseOpenTime s = .ok (some ⟨sd, ed, sh, eh⟩)) := by
  refine ⟨rfl, rfl, rfl, rfl, ?_, ?_⟩
  · intro ds hne hd h12
    obtain ⟨hpm, ham⟩ := parseHour_digits_append ds hne hd
    rw [if_neg h12] at hpm
    rw [if_neg h12] at ham
    exact ⟨hpm, ham⟩
  · intro s d1 d2 h1 h2 sd ed sh eh hsent hmatch hd1 hd2 hph1 hph2
    have e1 : parseHourChars (String.mk h1) (trimChars h1) = .ok sh := hph1
    have e2 : parseHourChars (String.mk h2) (trimChars h2) = .ok eh := hph2
    simp only [parseOpenTime, if_neg hsent, hmatch, hd1, hd2, e1, e2]
    rfl

/-- C8 witness: the general clauses instantiated at the token `9PM` and at
the window string `Mon to Fri (9AM to 6PM)`. -/
theorem parseHour_twelve_hour_clock_witness :
    ((['9'] : List Char) ≠ [] ∧ (∀ c ∈ (['9'] : List Char), c.isDigit = true) ∧
      natOfDigits ['9'] ≠ 12) ∧
    (parseHour (String.mk (['9'] ++ ['P', 'M'])) = .ok (natOfDigits ['9'] + 12) ∧
      parseHour (String.mk (['9'] ++ ['A', 'M'])) = .ok (natOfDigits ['9'])) ∧
    parseOpenTime "Mon to Fri (9AM to 6PM)" = .ok (some ⟨1, 5, 9, 18⟩) := by
  refine ⟨by decide, ?_, ?_⟩
  · exact parseHour_twelve_hour_clock.2.2.2.2.1 ['9'] (by decide) (by decide)
      (by decide)
  · exact parseHour_twelve_hour_clock.2.2.2.2.2 "Mon to Fri (9AM to 6PM)"
      ['M', 'o', 'n'] ['F', 'r', 'i'] ['9', 'A', 'M'] ['6', 'P', 'M'] 1 5 9 18
      (by decide) (by decide) (by decide) (by decide) rfl rfl

/-! ## C9: malformed windows -/

/-- C9: `parseOpenTime` throws the malformed-window `Error` for every input
that is neither the case-insensitive whitespace-trimmed always-open sentinel
nor a full match of the `<Day3> to <Day3> (<Hour12> to <Hour12>)` pattern;
in particular the unknown-day string, the empty string and the
missing-parentheses string all fail, and an unknown day abbreviation inside
a pattern match fails through the same single error channel as a pattern
mismatch. -/
theorem parseOpenTime_malformed :
    isParseError (parseOpenTime "Xyz to Fri (9AM to 6PM)") = true ∧
    isParseError (parseOpenTime "") = true ∧
    isParseError (parseOpenTime "Mon to Fri 9AM to 6PM") = true ∧
    (∀ s : String, lowerChars (trimChars s.data) ≠ "always open".data →
      matchWindowPattern (trimChars s.data) = none →
      isParseError (parseOpenTime s) = true) ∧
    (∀ (s : String) (d1 d2 h1 h2 : List Char),
      lowerChars (trimChars s.data) ≠ "always open".data →
      matchWindowPattern (trimChars s.data) = some (d1, d2, h1, h2) →
      (dayMap d1 = none ∨ dayMap d2 = none) →
      isParseError (parseOpenTime s) = true) := by
  refine ⟨by decide, by decide, by decide, ?_, ?_⟩
  · intro s hsent hmatch
    simp only [parseOpenTime, if_neg hsent, hmatch, isParseError]
  · intro s d1 d2 h1 h2 hsent hmatch hday
    simp only [parseOpenTime, if_neg hsent, hmatch]
    rcases hday with hday | hday
    · rw [hday]
      rcases hd2 : dayMap d2 with _ | v <;> simp [isParseError]
    · rw [hday]
      rcases hd1 : dayMap d1 with _ | v <;> simp [isParseError]

/-- C9 witness: the general clauses instantiated at `Weekdays only` (a
pattern mismatch) and at `Xyz to Fri (9AM to 6PM)` (a pattern match whose
start day is unknown). -/
theorem parseOpenTime_malformed_witness :
    (lowerChars (trimChars ("Weekdays only" : String).data) ≠ "always open".data ∧
      matchWindowPattern (trimChars ("Weekdays only" : String).data) = none) ∧
    isParseError (parseOpenTime "Weekdays only") = true ∧
    isParseError (parseOpenTime "Xyz to Fri (9AM to 6PM)") = true := by
  refine ⟨by decide, ?_, ?_⟩
  · exact parseOpenTime_malformed.2.2.2.1 "Weekdays only" (by decide) (by decide)
  · exact parseOpenTime_malformed.2.2.2.2 "Xyz to Fri (9AM to 6PM)"
      ['X', 'y', 'z'] ['F', 'r', 'i'] ['9', 'A', 'M'] ['6', 'P', 'M']
      (by decide) (by decide) (Or.inl (by decide))

/-! ## C10: inclusive closing-hour boundary -/

/-- C10: the closing-hour policy of `isWithinOpenTime` is inclusive at both
ends: for `Mon to Fri (9AM to 6PM)` a Monday instant at exactly 18:00 UTC is
accepted, 18:01 is rejected, 09:00 is accepted; and in general, on an
allowed day, acceptance is exactly
`startHour*60 ≤ minutes-of-day ≤ endHour*60`. -/
theorem isWithinOpenTime_inclusive_end :
    isWithinOpenTime "Mon to Fri (9AM to 6PM)" (utcMs mon20260302 18 0) = .ok true ∧
    isWithinOpenTime "Mon to Fri (9AM to 6PM)" (utcMs mon20260302 18 1) = .ok false ∧
    isWithinOpenTime "Mon to Fri (9AM to 6PM)" (utcMs mon20260302 9 0) = .ok true ∧
    (∀ (p : ParsedOpenTime) (ms : Nat),
      (dayWalk 7 p.startDay p.endDay).contains (getUTCDay ms) = true →
      (isWithinParsed p ms = true ↔
        p.startHour * 60 ≤ getUTCHours ms * 60 + getUTCMinutes ms ∧
        getUTCHours ms * 60 + getUTCMinutes ms ≤ p.endHour * 60)) := by
  refine ⟨rfl, rfl, rfl, ?_⟩
  intro p ms hday
  simp only [isWithinParsed, hday, if_true, Bool.and_eq_true, decide_eq_true_eq]

/-- C10 witness: the boundary clause instantiated at the parsed
`Mon to Fri (9AM to 6PM)` window and Monday 2026-03-02 18:00 UTC. -/
theorem isWithinOpenTime_inclusive_end_witness :
    (dayWalk 7 1 5).contains (getUTCDay (utcMs mon20260302 18 0)) = true ∧
    (isWithinParsed ⟨1, 5, 9, 18⟩ (utcMs mon20260302 18 0) = true ↔
      9 * 60 ≤ getUTCHours (utcMs mon20260302 18 0) * 60 +
        getUTCMinutes (utcMs mon20260302 18 0) ∧
      getUTCHours (utcMs mon20260302 18 0) * 60 +
        getUTCMinutes (utcMs mon20260302 18 0) ≤ 18 * 60) := by
  refine ⟨by decide, ?_⟩
  exact isWithinOpenTime_inclusive_end.2.2.2 ⟨1, 5, 9, 18⟩
    (utcMs mon20260302 18 0) (by decide)

/-! ## C6: forward-wrapping inclusive day walk -/

/-- C6: for every parsed window (day fields in 0–6) a day is in the walked
range iff it lies on the inclusive forward-wrapping walk from `startDay` to
`endDay` modulo 7; the walk from Friday (5) to Monday (1) is exactly
`[Fri, Sat, Sun, Mon]`; the walk visits at most `fuel` (= 7) days and, being
structurally recursive, always terminates; the every-day range `Mon to Sun`
walks all seven days; and `isWithinParsed` accepts an instant only when its
UTC day-of-week is in the walked range. -/
theorem dayWalk_forward_wrapping :
    (∀ s e d : Nat, s < 7 → e < 7 → d < 7 →
      (d ∈ dayWalk 7 s e ↔ ∃ k, k ≤ (7 + e - s) % 7 ∧ d = (s + k) % 7)) ∧
    dayWalk 7 5 1 = [5, 6, 0, 1] ∧
    dayWalk 7 1 0 = [1, 2, 3, 4, 5, 6, 0] ∧
    (∀ fuel s e : Nat, (dayWalk fuel s e).length ≤ fuel) ∧
    (∀ (p : ParsedOpenTime) (ms : Nat), isWithinParsed p ms = true →
      getUTCDay ms ∈ dayWalk 7 p.startDay p.endDay) := by
  refine ⟨?_, by decide, by decide, fun fuel s e => dayWalk_length_le fuel s e, ?_⟩
  · intro s e d hs he hd
    rw [dayWalk_mem_iff_bounded s hs e he d hd]
    constructor
    · rintro ⟨k, -, hk, hdk⟩
      exact ⟨k, hk, hdk⟩
    · rintro ⟨k, hk, hdk⟩
      have hm : (7 + e - s) % 7 < 7 := Nat.mod_lt _ (by decide)
      exact ⟨k, by omega, hk, hdk⟩
  · intro p ms h
    by_cases hc : (dayWalk 7 p.startDay p.endDay).contains (getUTCDay ms) = true
    · simpa using hc
    · exfalso
      simp only [isWithinParsed] at h
      rw [if_neg hc] at h
      exact Bool.false_ne_true h

/-- C6 witness: the modular characterisation instantiated at the
`Fri to Mon` walk and day Saturday (6). -/
theorem dayWalk_forward_wrapping_witness :
    (5 < 7 ∧ 1 < 7 ∧ 6 < 7) ∧
    (6 ∈ dayWalk 7 5 1 ↔ ∃ k, k ≤ (7 + 1 - 5) % 7 ∧ 6 = (5 + k) % 7) := by
  refine ⟨by decide, ?_⟩
  exact dayWalk_forward_wrapping.1 5 1 6 (by decide) (by decide) (by decide)

/-! ## Helper lemmas about `create` -/

/-- When every pre-check passes, `createCore` is exactly the transactional
conflict check and insert. -/
theorem createCore_reaches_conflict_check
    (within : String → Nat → Except String Bool) (env : Env) (db : DB)
    (dto : CreateBookingDto) (loc : Location) (cfg : LocationDepartment)
    (hloc : findFlatByNumber env dto.locationNumber = .ok loc)
    (ht : dto.startTime < dto.endTime)
    (hcfg : findDeptConfig env loc.id dto.department = some cfg)
    (hcap : dto.attendees ≤ cfg.capacity)
    (hot : checkOpenTime within cfg dto = .ok ()) :
    createCore within env db dto = conflictCheckAndInsert loc db dto := by
  unfold createCore
  rw [hloc]
  simp only [if_neg (Nat.not_le.mpr ht), hcfg, if_neg (Nat.not_lt.mpr hcap), hot]

/-- A successful `create` appends exactly the new booking, and no persisted
booking satisfied the overlap query against it. -/
theorem create_ok_shape {env : Env} {db : DB} {dto : CreateBookingDto}
    {b : Booking} {db2 : DB} (h : create env db dto = .ok (b, db2)) :
    db2 = { bookings := db.bookings ++ [b], nextId := db.nextId + 1 } ∧
    db.bookings.find? (overlapsQuery b.locationId b.startTime b.endTime) = none := by
  unfold create createCore at h
  split at h
  · exact absurd h (by simp)
  · split at h
    · exact absurd h (by simp)
    · split at h
      · exact absurd h (by simp)
      · split at h
        · exact absurd h (by simp)
        · split at h
          · exact absurd h (by simp)
          · unfold conflictCheckAndInsert at h
            split at h
            · exact absurd h (by simp)
            · rename_i loc _ _ _ _ _ _ hfind
              simp only [Except.ok.injEq, Prod.mk.injEq] at h
              obtain ⟨hb, hdb⟩ := h
              subst hb
              exact ⟨hdb.symm, hfind⟩

/-- `createDB` preserves the pairwise no-overlap invariant. -/
theorem createDB_preserves_noOverlapInv (env : Env) (db : DB)
    (dto : CreateBookingDto) (hinv : NoOverlapInv db) :
    NoOverlapInv (createDB env db dto) := by
  unfold createDB
  cases hc : create env db dto with
  | error e => exact hinv
  | ok r =>
    obtain ⟨b, db3⟩ := r
    obtain ⟨hdb, hfind⟩ := create_ok_shape hc
    subst hdb
    show (db.bookings ++ [b]).Pairwise _
    rw [List.pairwise_append]
    refine ⟨hinv, List.pairwise_singleton _ _, ?_⟩
    intro a ha x hx
    rw [List.mem_singleton] at hx
    subst hx
    have hq := List.find?_eq_none.mp hfind a ha
    simp only [overlapsQuery, Bool.and_eq_true, decide_eq_true_eq,
      beq_iff_eq] at hq
    rintro ⟨h1, h2, h3⟩
    exact hq ⟨⟨h1, h2⟩, h3⟩

/-! ## C1: transactional overlap check and global overlap invariant -/

/-- C1: for a request that reaches the conflict check (all earlier checks
pass), if some persisted booking for the same location satisfies
`existing.startTime < candidate.endTime ∧ existing.endTime >
candidate.startTime` then `create` fails with the `ConflictException`
reporting the colliding interval and the store is unchanged; otherwise the
candidate is inserted (appended with a fresh id); and every `create` step,
on any input, preserves the invariant that no two persisted bookings for
one location overlap in `[startTime, endTime)`. -/
theorem create_conflict_detector (env : Env) (db : DB)
    (dto : CreateBookingDto) (loc : Location) (cfg : LocationDepartment)
    (hloc : findFlatByNumber env dto.locationNumber = .ok loc)
    (ht : dto.startTime < dto.endTime)
    (hcfg : findDeptConfig env loc.id dto.department = some cfg)
    (hcap : dto.attendees ≤ cfg.capacity)
    (hot : checkOpenTime isWithinOpenTime cfg dto = .ok ()) :
    ((∃ x ∈ db.bookings, overlapsQuery loc.id dto.startTime dto.endTime x = true) →
      ∃ b, b ∈ db.bookings ∧
        overlapsQuery loc.id dto.startTime dto.endTime b = true ∧
        create env db dto = .error ⟨.conflict,
          alreadyBookedMsg dto.locationNumber b.startTime b.endTime⟩ ∧
        createDB env db dto = db) ∧
    ((∀ x ∈ db.bookings, overlapsQuery loc.id dto.startTime dto.endTime x = false) →
      ∃ nb : Booking, nb.locationId = loc.id ∧ nb.startTime = dto.startTime ∧
        nb.endTime = dto.endTime ∧
        create env db dto = .ok (nb, ⟨db.bookings ++ [nb], db.nextId + 1⟩)) ∧
    (∀ (env2 : Env) (db2 : DB) (dto2 : CreateBookingDto),
      NoOverlapInv db2 → NoOverlapInv (createDB env2 db2 dto2)) := by
  have hreach : create env db dto = conflictCheckAndInsert loc db dto :=
    createCore_reaches_conflict_check isWithinOpenTime env db dto loc cfg
      hloc ht hcfg hcap hot
  refine ⟨?_, ?_, fun env2 db2 dto2 h => createDB_preserves_noOverlapInv env2 db2 dto2 h⟩
  · intro hex
    have hsome : (db.bookings.find?
        (overlapsQuery loc.id dto.startTime dto.endTime)).isSome := by
      rw [List.find?_isSome]
      simpa using hex
    obtain ⟨b, hb⟩ := Option.isSome_iff_exists.mp hsome
    have hmem := List.mem_of_find?_eq_some hb
    have hpb := List.find?_some hb
    have herr : create env db dto = .error ⟨.conflict,
        alreadyBookedMsg dto.locationNumber b.startTime b.endTime⟩ := by
      rw [hreach]
      unfold conflictCheckAndInsert
      rw [hb]
    refine ⟨b, hmem, hpb, herr, ?_⟩
    unfold createDB
    rw [herr]
  · intro hnone
    have hfind : db.bookings.find?
        (overlapsQuery loc.id dto.startTime dto.endTime) = none := by
      rw [List.find?_eq_none]
      intro x hx
      simp [hnone x hx]
    refine ⟨⟨db.nextId, loc.id, dto.department, dto.attendees,
      dto.startTime, dto.endTime⟩, rfl, rfl, rfl, ?_⟩
    rw [hreach]
    unfold conflictCheckAndInsert
    rw [hfind]

/-- C1 witness: the room fixture, an empty store, a valid Monday request. -/
theorem create_conflict_detector_witness :
    (findFlatByNumber envW dtoW.locationNumber = .ok locW ∧
      dtoW.startTime < dtoW.endTime ∧
      findDeptConfig envW locW.id dtoW.department = some cfgW ∧
      dtoW.attendees ≤ cfgW.capacity ∧
      checkOpenTime isWithinOpenTime cfgW dtoW = .ok ()) ∧
    ((∀ x ∈ dbW.bookings, overlapsQuery locW.id dtoW.startTime dtoW.endTime x = false) →
      ∃ nb : Booking, nb.locationId = locW.id ∧ nb.startTime = dtoW.startTime ∧
        nb.endTime = dtoW.endTime ∧
        create envW dbW dtoW = .ok (nb, ⟨dbW.bookings ++ [nb], dbW.nextId + 1⟩)) := by
  refine ⟨⟨rfl, by decide, rfl, by decide, rfl⟩, ?_⟩
  exact (create_conflict_detector envW dbW dtoW locW cfgW rfl (by decide) rfl
    (by decide) rfl).2.1

/-! ## C2: commit-time serialization failures -/

/-- C2: a transaction-layer failure that is a PostgreSQL serialization
failure (`QueryFailedError` with code `40001`) is translated into a
`ConflictException` — the same exception class as a pre-check slot
collision produced by `conflictCheckAndInsert` — while every failure that
is not a serialization failure is re-thrown unmodified. -/
theorem txFailure_translation :
    (∀ m : String, ∃ exc : Exc,
      translateTxFailure (.queryFailed "40001" m) = .inr exc ∧
      exc.kind = .conflict) ∧
    (∀ e : TxError, isSerializationFailure e = false →
      translateTxFailure e = .inl e) ∧
    (∀ (loc : Location) (db : DB) (dto : CreateBookingDto) (exc : Exc),
      conflictCheckAndInsert loc db dto = .error exc → exc.kind = .conflict) := by
  refine ⟨?_, ?_, ?_⟩
  · intro m
    exact ⟨_, rfl, rfl⟩
  · intro e he
    cases e with
    | queryFailed code m =>
      simp only [isSerializationFailure, beq_eq_false_iff_ne, ne_eq] at he
      simp only [translateTxFailure, if_neg he]
    | other m => rfl
  · intro loc db dto exc h
    unfold conflictCheckAndInsert at h
    split at h
    · simp only [Except.error.injEq] at h
      subst h
      rfl
    · exact absurd h (by simp)

/-- C2 witness: the serialization failure with a concrete message is
translated; a unique-violation failure (`23505`) passes through as-is. -/
theorem txFailure_translation_witness :
    (∃ exc : Exc,
      translateTxFailure (.queryFailed "40001" "could not serialize access") =
        .inr exc ∧ exc.kind = .conflict) ∧
    (isSerializationFailure (.queryFailed "23505" "duplicate key") = false ∧
      translateTxFailure (.queryFailed "23505" "duplicate key") =
        .inl (.queryFailed "23505" "duplicate key")) := by
  refine ⟨?_, by decide, ?_⟩
  · exact txFailure_translation.1 "could not serialize access"
  · exact txFailure_translation.2.1 (.queryFailed "23505" "duplicate key")
      (by decide)

/-! ## C3: order of the validation checks -/

/-- C3 counterexample: a request with `startTime > endTime` naming a
location that does not exist fails with the location-not-found error (class
`NotFoundException`), not with the invalid-interval error — the temporal
check does not run first, the location lookup does. -/
theorem create_order_counterexample :
    dtoBadInterval.startTime ≥ dtoBadInterval.endTime ∧
    create envEmpty ⟨[], 1⟩ dtoBadInterval =
      .error ⟨.notFound, "Location 'B-99-99' not found"⟩ ∧
    create envEmpty ⟨[], 1⟩ dtoBadInterval ≠
      .error ⟨.badRequest,
        invalidIntervalMsg dtoBadInterval.startTime dtoBadInterval.endTime⟩ ∧
    ExcKind.notFound ≠ ExcKind.badRequest := by
  refine ⟨by decide, rfl, ?_, by decide⟩
  intro h
  rw [show create envEmpty ⟨[], 1⟩ dtoBadInterval =
    .error ⟨.notFound, "Location 'B-99-99' not found"⟩ from rfl] at h
  simp only [Except.error.injEq, Exc.mk.injEq] at h
  exact absurd h.1 (by decide)

/-- C3 (amended): once the location lookup has succeeded, the checks run
strictly in the order temporal sanity, department-scope resolution,
capacity, availability window, stopping at the first failure; a request
with `startTime ≥ endTime` fails with the invalid-interval error regardless
of whether the location serves the requested department — but a request
naming an unknown location fails with the not-found error before the
temporal check is reached. -/
theorem create_check_order (env : Env) (db : DB) (dto : CreateBookingDto)
    (loc : Location)
    (hloc : findFlatByNumber env dto.locationNumber = .ok loc) :
    (dto.startTime ≥ dto.endTime →
      create env db dto = .error ⟨.badRequest,
        invalidIntervalMsg dto.startTime dto.endTime⟩) ∧
    (dto.startTime < dto.endTime →
      findDeptConfig env loc.id dto.department = none →
      create env db dto = .error ⟨.badRequest,
        doesNotServeMsg dto.locationNumber dto.department⟩) ∧
    (∀ cfg : LocationDepartment, dto.startTime < dto.endTime →
      findDeptConfig env loc.id dto.department = some cfg →
      dto.attendees > cfg.capacity →
      create env db dto = .error ⟨.badRequest,
        capacityExceededMsg dto.department dto.locationNumber
          cfg.capacity dto.attendees⟩) ∧
    (∀ (cfg : LocationDepartment) (exc : Exc), dto.startTime < dto.endTime →
      findDeptConfig env loc.id dto.department = some cfg →
      dto.attendees ≤ cfg.capacity →
      checkOpenTime isWithinOpenTime cfg dto = .error exc →
      create env db dto = .error exc) := by
  refine ⟨?_, ?_, ?_, ?_⟩
  · intro ht
    unfold create createCore
    rw [hloc]
    simp only [if_pos ht]
  · intro ht hcfg
    unfold create createCore
    rw [hloc]
    simp only [if_neg (Nat.not_le.mpr ht), hcfg]
  · intro cfg ht hcfg hcap
    unfold create createCore
    rw [hloc]
    simp only [if_neg (Nat.not_le.mpr ht), hcfg, if_pos hcap]
  · intro cfg exc ht hcfg hcap hot
    unfold create createCore
    rw [hloc]
    simp only [if_neg (Nat.not_le.mpr ht), hcfg, if_neg (Nat.not_lt.mpr hcap),
      hot]

/-- C3 witness: the invalid-interval clause instantiated at the room
fixture with a reversed interval. -/
theorem create_check_order_witness :
    (findFlatByNumber envW
        (CreateBookingDto.locationNumber ⟨"A-01-01", "EFM", 5,
          utcMs mon20260302 11 0, utcMs mon20260302 9 0⟩) = .ok locW ∧
      utcMs mon20260302 11 0 ≥ utcMs mon20260302 9 0) ∧
    create envW dbW ⟨"A-01-01", "EFM", 5, utcMs mon20260302 11 0,
        utcMs mon20260302 9 0⟩ =
      .error ⟨.badRequest,
        invalidIntervalMsg (utcMs mon20260302 11 0) (utcMs mon20260302 9 0)⟩ := by
  refine ⟨⟨rfl, by decide⟩, ?_⟩
  exact (create_check_order envW dbW
    ⟨"A-01-01", "EFM", 5, utcMs mon20260302 11 0, utcMs mon20260302 9 0⟩
    locW rfl).1 (by decide)

/-! ## C4: error kinds for the two unknown-scope cases -/

/-- C4 counterexample: a request naming a location that does not exist
fails with a `NotFoundException`, while a request naming an existing
location that does not serve the requested department fails with a
`BadRequestException` — two different error kinds, not one shared
`UnknownScope` kind. -/
theorem unknown_scope_counterexample :
    create envNoDept ⟨[], 1⟩
        ⟨"B-77", "EFM", 5, utcMs mon20260302 9 0, utcMs mon20260302 11 0⟩ =
      .error ⟨.notFound, "Location 'B-77' not found"⟩ ∧
    create envNoDept ⟨[], 1⟩
        ⟨"A-01-01", "EFM", 5, utcMs mon20260302 9 0, utcMs mon20260302 11 0⟩ =
      .error ⟨.badRequest, doesNotServeMsg "A-01-01" "EFM"⟩ ∧
    ExcKind.notFound ≠ ExcKind.badRequest := by
  exact ⟨rfl, rfl, by decide⟩

/-- C4 (amended): when no configuration exists for the requested
(location, department) pair, `create` fails — but with two distinct error
kinds: a missing location propagates the `NotFoundException` of the lookup,
while an existing location that does not serve the department yields the
`BadRequestException` `does not serve department` error. -/
theorem unknown_scope_error_kinds (env : Env) (db : DB)
    (dto : CreateBookingDto) :
    (∀ e : Exc, findFlatByNumber env dto.locationNumber = .error e →
      create env db dto = .error e ∧ e.kind = .notFound) ∧
    (∀ loc : Location, findFlatByNumber env dto.locationNumber = .ok loc →
      dto.startTime < dto.endTime →
      findDeptConfig env loc.id dto.department = none →
      create env db dto = .error ⟨.badRequest,
        doesNotServeMsg dto.locationNumber dto.department⟩ ∧
      ExcKind.badRequest ≠ ExcKind.notFound) := by
  constructor
  · intro e he
    constructor
    · unfold create createCore
      rw [he]
    · unfold findFlatByNumber at he
      split at he
      · exact absurd he (by simp)
      · simp only [Except.error.injEq] at he
        subst he
        rfl
  · intro loc hloc ht hcfg
    refine ⟨?_, by decide⟩
    unfold create createCore
    rw [hloc]
    simp only [if_neg (Nat.not_le.mpr ht), hcfg]

/-- C4 witness: both clauses instantiated at the no-department fixture. -/
theorem unknown_scope_error_kinds_witness :
    (findFlatByNumber envNoDept
        (CreateBookingDto.locationNumber ⟨"B-77", "EFM", 5,
          utcMs mon20260302 9 0, utcMs mon20260302 11 0⟩) =
      .error ⟨.notFound, "Location 'B-77' not found"⟩) ∧
    (create envNoDept ⟨[], 1⟩
        ⟨"B-77", "EFM", 5, utcMs mon20260302 9 0, utcMs mon20260302 11 0⟩ =
      .error ⟨.notFound, "Location 'B-77' not found"⟩ ∧
      Exc.kind ⟨.notFound, "Location 'B-77' not found"⟩ = .notFound) := by
  refine ⟨rfl, ?_⟩
  exact (unknown_scope_error_kinds envNoDept ⟨[], 1⟩
    ⟨"B-77", "EFM", 5, utcMs mon20260302 9 0, utcMs mon20260302 11 0⟩).1
    ⟨.notFound, "Location 'B-77' not found"⟩ rfl

/-- Whether `isWithinOpenTime` throws depends only on the window string,
never on the instant: if it returns `ok` at one instant it returns `ok` at
every instant. -/
theorem isWithinOpenTime_ok_any (ot : String) (x y : Nat) (b : Bool)
    (h : isWithinOpenTime ot x = .ok b) :
    ∃ b2 : Bool, isWithinOpenTime ot y = .ok b2 := by
  unfold isWithinOpenTime at h ⊢
  cases hp : parseOpenTime ot with
  | error e =>
    rw [hp] at h
    exact absurd h (by simp)
  | ok o => cases o <;> exact ⟨_, rfl⟩

/-! ## C5: availability-window evaluation -/

/-- C5: for a request that passed the earlier checks, when the resolved
configuration's `openTime` is non-null both endpoints are evaluated with
`isWithinOpenTime` and the failure reports which endpoint was outside the
window, the start endpoint being checked and reported before the end
endpoint; when `openTime` is null the availability check passes
unconditionally and the result does not depend on the window evaluator at
all (no grammar evaluation is performed). -/
theorem open_time_check_behaviour (env : Env) (db : DB)
    (dto : CreateBookingDto) (loc : Location) (cfg : LocationDepartment)
    (hloc : findFlatByNumber env dto.locationNumber = .ok loc)
    (ht : dto.startTime < dto.endTime)
    (hcfg : findDeptConfig env loc.id dto.department = some cfg)
    (hcap : dto.attendees ≤ cfg.capacity) :
    (∀ ot : String, cfg.openTime = some ot →
      (isWithinOpenTime ot dto.startTime = .ok false →
        create env db dto = .error ⟨.badRequest,
          startOutsideMsg dto.locationNumber dto.department ot⟩) ∧
      (isWithinOpenTime ot dto.startTime = .ok true →
        isWithinOpenTime ot dto.endTime = .ok false →
        create env db dto = .error ⟨.badRequest,
          endOutsideMsg dto.locationNumber dto.department ot⟩)) ∧
    (cfg.openTime = none →
      ∀ w1 w2 : String → Nat → Except String Bool,
        createCore w1 env db dto = createCore w2 env db dto) := by
  constructor
  · intro ot hot
    constructor
    · intro hstart
      unfold create createCore
      rw [hloc]
      obtain ⟨b2, hend2⟩ := isWithinOpenTime_ok_any ot dto.startTime
        dto.endTime false hstart
      have hco : checkOpenTime isWithinOpenTime cfg dto = .error ⟨.badRequest,
          startOutsideMsg dto.locationNumber dto.department ot⟩ := by
        simp only [checkOpenTime, hot, hstart, hend2]
        simp
      simp only [if_neg (Nat.not_le.mpr ht), hcfg,
        if_neg (Nat.not_lt.mpr hcap), hco]
    · intro hstart hend
      unfold create createCore
      rw [hloc]
      have hco : checkOpenTime isWithinOpenTime cfg dto = .error ⟨.badRequest,
          endOutsideMsg dto.locationNumber dto.department ot⟩ := by
        simp only [checkOpenTime, hot, hstart, hend]
        simp
      simp only [if_neg (Nat.not_le.mpr ht), hcfg,
        if_neg (Nat.not_lt.mpr hcap), hco]
  · intro hnone w1 w2
    have h1 : checkOpenTime w1 cfg dto = .ok () := by
      unfold checkOpenTime
      rw [hnone]
    have h2 : checkOpenTime w2 cfg dto = .ok () := by
      unfold checkOpenTime
      rw [hnone]
    rw [createCore_reaches_conflict_check w1 env db dto loc cfg hloc ht hcfg
      hcap h1,
      createCore_reaches_conflict_check w2 env db dto loc cfg hloc ht hcfg
      hcap h2]

/-- C5 witness: the start endpoint outside the window (Monday 08:00) is
reported as the start-outside error at the room fixture. -/
theorem open_time_check_behaviour_witness :
    (isWithinOpenTime "Mon to Fri (9AM to 6PM)" (utcMs mon20260302 8 0) =
      .ok false) ∧
    create envW dbW ⟨"A-01-01", "EFM", 5, utcMs mon20260302 8 0,
        utcMs mon20260302 11 0⟩ =
      .error ⟨.badRequest,
        startOutsideMsg "A-01-01" "EFM" "Mon to Fri (9AM to 6PM)"⟩ := by
  refine ⟨rfl, ?_⟩
  exact ((open_time_check_behaviour envW dbW
    ⟨"A-01-01", "EFM", 5, utcMs mon20260302 8 0, utcMs mon20260302 11 0⟩
    locW cfgW rfl (by decide) rfl (by decide)).1
    "Mon to Fri (9AM to 6PM)" rfl).1 rfl

/-! ## C7: capacity boundary -/

/-- C7: with a resolved configuration, a request with attendees exactly
equal to the configured capacity passes the capacity check (and succeeds
when the window check passes and no overlap exists), while attendees equal
to capacity + 1 fails with the capacity-exceeded error whose message
carries both the configured capacity and the requested count. -/
theorem capacity_boundary (env : Env) (db : DB) (dto : CreateBookingDto)
    (loc : Location) (cfg : LocationDepartment)
    (hloc : findFlatByNumber env dto.locationNumber = .ok loc)
    (ht : dto.startTime < dto.endTime)
    (hcfg : findDeptConfig env loc.id dto.department = some cfg) :
    (dto.attendees = cfg.capacity →
      checkOpenTime isWithinOpenTime cfg dto = .ok () →
      (∀ x ∈ db.bookings, overlapsQuery loc.id dto.startTime dto.endTime x = false) →
      ∃ (nb : Booking) (db2 : DB), create env db dto = .ok (nb, db2)) ∧
    (dto.attendees = cfg.capacity + 1 →
      create env db dto = .error ⟨.badRequest,
        capacityExceededMsg dto.department dto.locationNumber
          cfg.capacity dto.attendees⟩ ∧
      ∃ pre mid : String,
        capacityExceededMsg dto.department dto.locationNumber
            cfg.capacity dto.attendees =
          pre ++ toString cfg.capacity ++ (mid ++ toString dto.attendees)) := by
  constructor
  · intro hceq hot hnone
    have hfind : db.bookings.find?
        (overlapsQuery loc.id dto.startTime dto.endTime) = none := by
      rw [List.find?_eq_none]
      intro x hx
      simp [hnone x hx]
    have hreach := createCore_reaches_conflict_check isWithinOpenTime env db
      dto loc cfg hloc ht hcfg (Nat.le_of_eq hceq) hot
    refine ⟨⟨db.nextId, loc.id, dto.department, dto.attendees, dto.startTime,
      dto.endTime⟩,
      ⟨db.bookings ++ [⟨db.nextId, loc.id, dto.department, dto.attendees,
        dto.startTime, dto.endTime⟩], db.nextId + 1⟩, ?_⟩
    show createCore isWithinOpenTime env db dto = _
    rw [hreach]
    unfold conflictCheckAndInsert
    rw [hfind]
  · intro hcgt
    constructor
    · unfold create createCore
      rw [hloc]
      simp only [if_neg (Nat.not_le.mpr ht), hcfg,
        if_pos (show dto.attendees > cfg.capacity by omega)]
    · refine ⟨"Capacity exceeded: department '" ++ dto.department ++
        "' at '" ++ dto.locationNumber ++ "' holds ", ", requested ", ?_⟩
      unfold capacityExceededMsg
      simp [String.append_assoc]

/-- C7 witness: at the capacity-10 fixture, 10 attendees succeed and 11
attendees are rejected with a message carrying 10 and 11. -/
theorem capacity_boundary_witness :
    ((10 : Nat) = cfgW.capacity ∧ (11 : Nat) = cfgW.capacity + 1) ∧
    (∃ (nb : Booking) (db2 : DB),
      create envW dbW ⟨"A-01-01", "EFM", 10, utcMs mon20260302 9 0,
        utcMs mon20260302 11 0⟩ = .ok (nb, db2)) ∧
    (create envW dbW ⟨"A-01-01", "EFM", 11, utcMs mon20260302 9 0,
        utcMs mon20260302 11 0⟩ =
      .error ⟨.badRequest,
        capacityExceededMsg "EFM" "A-01-01" cfgW.capacity 11⟩ ∧
      ∃ pre mid : String,
        capacityExceededMsg "EFM" "A-01-01" cfgW.capacity 11 =
          pre ++ toString cfgW.capacity ++ (mid ++ toString (11 : Nat))) := by
  refine ⟨by decide, ?_, ?_⟩
  · exact (capacity_boundary envW dbW
      ⟨"A-01-01", "EFM", 10, utcMs mon20260302 9 0, utcMs mon20260302 11 0⟩
      locW cfgW rfl (by decide) rfl).1 (by decide) rfl
      (by intro x hx; simp [dbW] at hx)
  · exact (capacity_boundary envW dbW
      ⟨"A-01-01", "EFM", 11, utcMs mon20260302 9 0, utcMs mon20260302 11 0⟩
      locW cfgW rfl (by decide) rfl).2 (by decide)

end S3
